import Mathlib

/-!
Shallow embedding of the sqlite-mcp core: the data-access wrapper
(`internal/database/db.go`), the tool dispatcher
(`internal/tools/query.go`), the resource dispatcher
(`internal/resources/schema.go`) and the registration logic in
`cmd/server/main.go`.

External collaborators (the SQLite driver, the filesystem, the JSON
marshaller of the Go standard library) are modelled as oracle functions
bundled in environment structures; every database or driver call the
embedded code makes is recorded in an explicit call log so that claims
of the form "the database is never touched" become statements about the
log.  Go's `(value, error)` returns become `Option`/`Except` values,
machine strings become Lean `String`s, and Go string-library functions
(`strings.ToUpper`, `strings.TrimSpace`, `strings.HasPrefix`,
`strings.TrimPrefix`) are modelled over the underlying character lists
(ASCII-faithful, which covers every string the claims mention).
-/

namespace SqliteMcp

/-! ### Go string library model -/

/-- Model of Go `strings.ToUpper` on one character (ASCII range). -/
def upChar (c : Char) : Char :=
  if 'a' ≤ c ∧ c ≤ 'z' then Char.ofNat (c.toNat - 32) else c

/-- Model of Go `strings.ToUpper`. -/
def goToUpper (s : String) : String :=
  ⟨s.data.map upChar⟩

/-- Whitespace as trimmed by Go `strings.TrimSpace` (ASCII part:
space, tab, newline, carriage return, vertical tab, form feed). -/
def isGoSpace (c : Char) : Bool :=
  c = ' ' || c = '\t' || c = '\n' || c = '\r' || c = Char.ofNat 11 || c = Char.ofNat 12

/-- Model of Go `strings.TrimSpace`. -/
def goTrimSpace (s : String) : String :=
  ⟨((s.data.dropWhile isGoSpace).reverse.dropWhile isGoSpace).reverse⟩

/-- Model of Go `strings.HasPrefix s p`. -/
def goHasPfx (s p : String) : Bool :=
  p.data.isPrefixOf s.data

/-- Model of Go `strings.TrimPrefix s p`. -/
def goTrimPfx (s p : String) : String :=
  if goHasPfx s p then ⟨s.data.drop p.data.length⟩ else s

/-! ### Values, rows, arguments -/

/-- A dynamically typed SQLite scalar as produced by the wrapper's row
materialisation (`db.go`, `Query`): byte-slice values are already
coerced to text, so the model needs null, integer, real and text. -/
inductive Value
  | null
  | int (i : Int)
  | real (q : ℚ)
  | text (s : String)
deriving DecidableEq, Repr

/-- A row: mapping from column name to scalar (`map[string]interface{}`). -/
abbrev Row := List (String × Value)

/-- A JSON-ish argument value as delivered by the MCP framework to a
tool call (`mcp.ParseString` / `mcp.ParseArgument` only ever distinguish
strings, arrays and everything else). -/
inductive ArgValue
  | str (s : String)
  | arr (xs : List Value)
  | other
deriving DecidableEq, Repr

/-- The named-argument mapping of one tool invocation. -/
abbrev Args := List (String × ArgValue)

/-- Model of `mcp.ParseString request key default`: the argument when
present and a string, the default otherwise. -/
def parseStr (args : Args) (key dflt : String) : String :=
  match args.lookup key with
  | some (ArgValue.str s) => s
  | _ => dflt

/-- Model of the `parameters` extraction in both execute handlers:
`mcp.ParseArgument` followed by the `[]interface{}` type assertion;
anything that is not an array leaves `params` empty (nil). -/
def parseParams (args : Args) : List Value :=
  match args.lookup "parameters" with
  | some (ArgValue.arr xs) => xs
  | _ => []

/-! ### Database / driver oracles and call logs -/

/-- One call from the embedded code into the database wrapper's
underlying connection. -/
inductive DBCall
  | query (sql : String) (params : List Value)
  | exec (sql : String) (params : List Value)
deriving DecidableEq, Repr

/-- Environment of one connected dispatcher: the driver behind
`db.Query` / `db.Execute` and the Go `json.MarshalIndent` calls, all as
oracles.  `queryFn`/`execFn` model `database/sql` results,
`marshalRows`/`marshalTables`/`marshalTableInfo` model the three
`json.MarshalIndent` call sites (each may fail in Go, hence `Except`). -/
structure Env where
  queryFn : String → List Value → Except String (List Row)
  execFn : String → List Value → Except String Int
  marshalRows : List Row → Except String String
  marshalTables : List String → Except String String
  marshalTableInfo : String → List Row → Except String String

/-! ### Data-access wrapper (`internal/database/db.go`) -/

/-- The in-memory database marker (`database.InMemoryDB`). -/
def InMemoryDB : String := ":memory:"

/-- The DSN built by `database.New` (`db.go` lines 32-49): the
in-memory marker is passed through untouched; a file path becomes a
`file:` URI with a mode parameter and the container-environment tuning
parameters. -/
def buildDSN (dbPath : String) (readOnly : Bool) : String :=
  if dbPath = InMemoryDB then
    InMemoryDB
  else
    let base := "file:" ++ dbPath
    let withMode := if readOnly then base ++ "?mode=ro" else base ++ "?mode=rwc"
    withMode ++ "&_journal_mode=off&_temp_store=memory&_synchronous=off&_cache_size=-64000&_mmap_size=0"

/-- One call from `database.New` into the operating system / driver. -/
inductive DriverCall
  | stat (path : String)
  | openConn (dsn : String)
  | ping (dsn : String)
deriving DecidableEq, Repr

/-- System environment for `database.New`: filesystem existence
(`os.Stat` + `os.IsNotExist`) and the driver's open/ping/close outcomes
on a given DSN (`none` = success, `some e` = failure with message `e`). -/
structure SysEnv where
  fsExists : String → Bool
  openErr : String → Option String
  pingErr : String → Option String
  closeErr : String → Option String

/-- The connected handle (`database.DB`): the path it was created with
and the DSN its `sql.DB` was opened on. -/
structure DBConn where
  path : String
  dsn : String
deriving DecidableEq, Repr

/-- The open/ping part of `database.New` (`db.go` lines 51-68), reached
only after the existence check. -/
def connectSteps (sys : SysEnv) (dbPath : String) (readOnly : Bool) :
    Except String DBConn × List DriverCall :=
  let dsn := buildDSN dbPath readOnly
  match sys.openErr dsn with
  | some e => (Except.error ("failed to open database: " ++ e), [DriverCall.openConn dsn])
  | none =>
    match sys.pingErr dsn with
    | some e =>
      match sys.closeErr dsn with
      | some ce =>
        (Except.error ("failed to close database connection after ping error: " ++ ce),
          [DriverCall.openConn dsn, DriverCall.ping dsn])
      | none =>
        (Except.error ("failed to ping database: " ++ e),
          [DriverCall.openConn dsn, DriverCall.ping dsn])
    | none => (Except.ok ⟨dbPath, dsn⟩, [DriverCall.openConn dsn, DriverCall.ping dsn])

/-- `database.New` (`db.go` lines 24-69): existence check first (skipped
for the in-memory marker), then DSN construction, driver open and ping.
The second component records every OS/driver call made. -/
def New (sys : SysEnv) (dbPath : String) (readOnly : Bool) :
    Except String DBConn × List DriverCall :=
  if dbPath = InMemoryDB then
    connectSteps sys dbPath readOnly
  else if sys.fsExists dbPath then
    let r := connectSteps sys dbPath readOnly
    (r.1, DriverCall.stat dbPath :: r.2)
  else
    (Except.error ("database file does not exist: " ++ dbPath), [DriverCall.stat dbPath])

/-- The catalog query of `db.GetTables` (`db.go` line 140). -/
def tablesCatalogSQL : String :=
  "SELECT name FROM sqlite_master WHERE type='table' AND name NOT LIKE 'sqlite_%' ORDER BY name"

/-- `db.GetTables` (`db.go` lines 139-154): runs the catalog query and
keeps each row's `name` column when it is a string. -/
def GetTables (env : Env) : Except String (List String) × List DBCall :=
  match env.queryFn tablesCatalogSQL [] with
  | Except.error e => (Except.error e, [DBCall.query tablesCatalogSQL []])
  | Except.ok rows =>
    (Except.ok (rows.filterMap fun row =>
        match row.lookup "name" with
        | some (Value.text s) => some s
        | _ => none),
      [DBCall.query tablesCatalogSQL []])

/-- The SQL text built by `db.GetTableSchema` (`db.go` line 158):
`fmt.Sprintf("PRAGMA table_info(%s)", tableName)` — plain verbatim
concatenation of the caller-supplied name. -/
def tableInfoSQL (tableName : String) : String :=
  "PRAGMA table_info(" ++ tableName ++ ")"

/-- `db.GetTableSchema` (`db.go` lines 157-160): runs the pragma through
`db.Query` with no bound parameters. -/
def GetTableSchema (env : Env) (tableName : String) :
    Except String (List Row) × List DBCall :=
  match env.queryFn (tableInfoSQL tableName) [] with
  | Except.error e => (Except.error e, [DBCall.query (tableInfoSQL tableName) []])
  | Except.ok rows => (Except.ok rows, [DBCall.query (tableInfoSQL tableName) []])

/-! ### Tool dispatcher (`internal/tools/query.go`) -/

/-- A tool call result (`mcp.CallToolResult`, as far as the dispatcher
shapes it: one text content item and the error flag). -/
structure CallToolResult where
  content : String
  isError : Bool
deriving DecidableEq, Repr

/-- `mcp.NewToolResultError`. -/
def resErr (msg : String) : CallToolResult := ⟨msg, true⟩

/-- `mcp.NewToolResultText`. -/
def resText (msg : String) : CallToolResult := ⟨msg, false⟩

/-- `mcp.NewToolResultErrorFromErr msg err` (formats the message and the
wrapped error as one text). -/
def resErrFromErr (msg err : String) : CallToolResult := ⟨msg ++ ": " ++ err, true⟩

/-- A tool call request (`mcp.CallToolRequest`: name + arguments). -/
structure CallToolRequest where
  name : String
  args : Args
deriving DecidableEq, Repr

/-- The Go return pair `(*mcp.CallToolResult, error)` of every handler,
plus the log of wrapper calls the handler issued. -/
abbrev HandlerRet := (Option CallToolResult × Option String) × List DBCall

/-- The gate of `handleExecuteQuery` (`query.go` lines 97-101): reject
when, after upper-casing and trimming, the text does not start with
`SELECT`. -/
def executeQueryRejects (query : String) : Bool :=
  !(goHasPfx (goTrimSpace (goToUpper query)) "SELECT")

/-- The gate of `handleExecuteStatement` (`query.go` lines 132-136):
reject when, after upper-casing and trimming, the text does start with
`SELECT`. -/
def executeStatementRejects (statement : String) : Bool :=
  goHasPfx (goTrimSpace (goToUpper statement)) "SELECT"

/-- `handleExecuteQuery` (`query.go` lines 91-123). -/
def handleExecuteQuery (env : Env) (req : CallToolRequest) : HandlerRet :=
  let query := parseStr req.args "query" ""
  if query = "" then
    ((some (resErr "query parameter is required"), none), [])
  else if executeQueryRejects query then
    ((some (resErr "only SELECT queries are allowed with execute_query"), none), [])
  else
    let params := parseParams req.args
    match env.queryFn query params with
    | Except.error e =>
      ((some (resErrFromErr "Query execution failed" e), none), [DBCall.query query params])
    | Except.ok results =>
      match env.marshalRows results with
      | Except.error e =>
        ((some (resErrFromErr "Failed to format results" e), none), [DBCall.query query params])
      | Except.ok j =>
        ((some (resText ("Query executed successfully. Results:\n```json\n" ++ j ++ "\n```")),
          none), [DBCall.query query params])

/-- `handleExecuteStatement` (`query.go` lines 126-152). -/
def handleExecuteStatement (env : Env) (req : CallToolRequest) : HandlerRet :=
  let statement := parseStr req.args "statement" ""
  if statement = "" then
    ((some (resErr "statement parameter is required"), none), [])
  else if executeStatementRejects statement then
    ((some (resErr "SELECT queries should use execute_query tool"), none), [])
  else
    let params := parseParams req.args
    match env.execFn statement params with
    | Except.error e =>
      ((some (resErrFromErr "Statement execution failed" e), none),
        [DBCall.exec statement params])
    | Except.ok rowsAffected =>
      ((some (resText ("Statement executed successfully. Rows affected: " ++
          toString rowsAffected)), none), [DBCall.exec statement params])

/-- `handleListTables` (`query.go` lines 155-171). -/
def handleListTables (env : Env) (_req : CallToolRequest) : HandlerRet :=
  match GetTables env with
  | (Except.error e, log) =>
    ((some (resErrFromErr "Failed to list tables" e), none), log)
  | (Except.ok tables, log) =>
    if tables.length = 0 then
      ((some (resText "No tables found in the database"), none), log)
    else
      match env.marshalTables tables with
      | Except.error e => ((some (resErrFromErr "Failed to format table list" e), none), log)
      | Except.ok j =>
        ((some (resText ("Tables in database:\n```json\n" ++ j ++ "\n```")), none), log)

/-- `handleDescribeTable` (`query.go` lines 174-195). -/
def handleDescribeTable (env : Env) (req : CallToolRequest) : HandlerRet :=
  let tableName := parseStr req.args "table_name" ""
  if tableName = "" then
    ((some (resErr "table_name parameter is required"), none), [])
  else
    match GetTableSchema env tableName with
    | (Except.error e, log) =>
      ((some (resErrFromErr ("Failed to describe table '" ++ tableName ++ "'") e), none), log)
    | (Except.ok schema, log) =>
      if schema.length = 0 then
        ((some (resErr ("Table '" ++ tableName ++ "' not found")), none), log)
      else
        match env.marshalTableInfo tableName schema with
        | Except.error e => ((some (resErrFromErr "Failed to format schema" e), none), log)
        | Except.ok j =>
          ((some (resText ("Schema for table '" ++ tableName ++ "':\n```json\n" ++ j ++ "\n```")),
            none), log)

/-- `QueryTools.HandleTool` (`query.go` lines 75-88): dispatch on the
tool name; an unknown name yields the soft error, still with a nil Go
error. -/
def HandleTool (env : Env) (req : CallToolRequest) : HandlerRet :=
  if req.name = "execute_query" then handleExecuteQuery env req
  else if req.name = "execute_statement" then handleExecuteStatement env req
  else if req.name = "list_tables" then handleListTables env req
  else if req.name = "describe_table" then handleDescribeTable env req
  else ((some (resErr ("Unknown tool: " ++ req.name)), none), [])

/-! ### Resource dispatcher (`internal/resources/schema.go`) -/

/-- One resource content item (`mcp.TextResourceContents`). -/
structure ResourceContents where
  uri : String
  mimeType : String
  text : String
deriving DecidableEq, Repr

/-- `handleTablesList` (`schema.go` lines 65-83). -/
def handleTablesList (env : Env) : Except String (List ResourceContents) × List DBCall :=
  match GetTables env with
  | (Except.error e, log) => (Except.error ("failed to get tables: " ++ e), log)
  | (Except.ok tables, log) =>
    match env.marshalTables tables with
    | Except.error e => (Except.error ("failed to marshal tables: " ++ e), log)
    | Except.ok j => (Except.ok [⟨"schema://tables", "application/json", j⟩], log)

/-- `handleTableSchema` (`schema.go` lines 86-118). -/
def handleTableSchema (env : Env) (tableName : String) :
    Except String (List ResourceContents) × List DBCall :=
  if tableName = "" then
    (Except.error "table name is required", [])
  else
    match GetTableSchema env tableName with
    | (Except.error e, log) =>
      (Except.error ("failed to get table schema for '" ++ tableName ++ "': " ++ e), log)
    | (Except.ok schema, log) =>
      if schema.length = 0 then
        (Except.error ("table '" ++ tableName ++ "' not found"), log)
      else
        match env.marshalTableInfo tableName schema with
        | Except.error e => (Except.error ("failed to marshal table schema: " ++ e), log)
        | Except.ok j =>
          (Except.ok [⟨"schema://table/" ++ tableName, "application/json", j⟩], log)

/-- `SchemaResources.HandleResource` (`schema.go` lines 50-62): exact
match on the tables URI, prefix match on the table-schema URI, hard
error otherwise. -/
def HandleResource (env : Env) (uri : String) :
    Except String (List ResourceContents) × List DBCall :=
  if uri = "schema://tables" then
    handleTablesList env
  else if goHasPfx uri "schema://table/" then
    handleTableSchema env (goTrimPfx uri "schema://table/")
  else
    (Except.error ("unknown resource URI: " ++ uri), [])

/-! ### Registration (`cmd/server/main.go`) -/

/-- A declared tool, by its registered name (`mcp.Tool`). -/
structure Tool where
  name : String
deriving DecidableEq, Repr

/-- `QueryTools.GetTools` (`query.go` lines 26-33): the four tools in
declaration order. -/
def GetTools : List Tool :=
  [⟨"execute_query"⟩, ⟨"execute_statement"⟩, ⟨"list_tables"⟩, ⟨"describe_table"⟩]

/-- The tool-registration loop of `registerToolsAndResources`
(`main.go` lines 311-335): in read-only mode the `execute_statement`
tool is skipped, every other tool is added. -/
def registeredTools (readWrite : Bool) : List Tool :=
  GetTools.filter fun tool => !(!readWrite && tool.name == "execute_statement")

/-! ### Shared facts about the Go string model -/

/-- Whether a DSN carries the read-only mode parameter. -/
def dsnMentionsReadOnly (dsn : String) : Bool :=
  decide ("mode=ro".data <:+: dsn.data)

theorem hasPfx_append (p s : String) : goHasPfx (p ++ s) p = true := by
  simp [goHasPfx, String.data_append, List.isPrefixOf_iff_prefix]

theorem trimPfx_append (p s : String) : goTrimPfx (p ++ s) p = s := by
  simp [goTrimPfx, hasPfx_append, String.data_append, List.drop_left]

theorem append_ne_tables (name : String) (h : name ≠ "") :
    ("schema://table/" ++ name) ≠ "schema://tables" := by
  intro heq
  have hlen := congrArg String.length heq
  rw [String.length_append] at hlen
  have h15 : ("schema://table/" : String).length = 15 := by decide
  have h15t : ("schema://tables" : String).length = 15 := by decide
  rw [h15, h15t] at hlen
  have hz : name.length = 0 := by omega
  apply h
  cases name with
  | mk data =>
    simp [String.length] at hz
    simp [hz]

/-- Concrete environment for evaluating the dispatchers in witnesses:
every query succeeds with no rows, every statement affects no rows,
marshalling always succeeds. -/
def trivEnv : Env where
  queryFn := fun _ _ => Except.ok []
  execFn := fun _ _ => Except.ok 0
  marshalRows := fun _ => Except.ok "[]"
  marshalTables := fun _ => Except.ok "[]"
  marshalTableInfo := fun _ _ => Except.ok "[]"

/-- Concrete system environment where no file exists and the driver
never fails. -/
def trivSys : SysEnv where
  fsExists := fun _ => false
  openErr := fun _ => none
  pingErr := fun _ => none
  closeErr := fun _ => none

/-! ### Claim theorems -/

/-- C2: for every invocation of the `execute_query` tool whose `query`
argument is non-empty and, after trimming and upper-casing, does not
start with `SELECT`, the dispatcher returns the soft error
"only SELECT queries are allowed with execute_query" (a successful
protocol response flagged as error, nil Go error) and issues no call to
the database wrapper (empty call log), for every database oracle. -/
theorem executeQuery_nonSelect_soft_error (env : Env) (args : Args)
    (hne : parseStr args "query" "" ≠ "")
    (hgate : executeQueryRejects (parseStr args "query" "") = true) :
    HandleTool env ⟨"execute_query", args⟩ =
      ((some (resErr "only SELECT queries are allowed with execute_query"), none), []) := by
  simp [HandleTool, handleExecuteQuery, hne, hgate]

/-- Witness for C2 at the concrete non-SELECT text
`INSERT INTO users VALUES (1)`. -/
theorem executeQuery_nonSelect_soft_error_witness :
    parseStr [("query", ArgValue.str "INSERT INTO users VALUES (1)")] "query" "" ≠ "" ∧
    executeQueryRejects
      (parseStr [("query", ArgValue.str "INSERT INTO users VALUES (1)")] "query" "") = true ∧
    HandleTool trivEnv ⟨"execute_query", [("query", ArgValue.str "INSERT INTO users VALUES (1)")]⟩ =
      ((some (resErr "only SELECT queries are allowed with execute_query"), none), []) :=
  ⟨by decide, by decide,
    executeQuery_nonSelect_soft_error trivEnv _ (by decide) (by decide)⟩

/-- C3: for every invocation of the `execute_statement` tool whose
`statement` argument is non-empty and, after trimming and upper-casing,
does start with `SELECT`, the dispatcher returns the soft error
"SELECT queries should use execute_query tool" and issues no call to
the database wrapper. -/
theorem executeStatement_select_soft_error (env : Env) (args : Args)
    (hne : parseStr args "statement" "" ≠ "")
    (hgate : executeStatementRejects (parseStr args "statement" "") = true) :
    HandleTool env ⟨"execute_statement", args⟩ =
      ((some (resErr "SELECT queries should use execute_query tool"), none), []) := by
  simp [HandleTool, handleExecuteStatement, hne, hgate]

/-- Witness for C3 at the concrete SELECT text `  select * from users`. -/
theorem executeStatement_select_soft_error_witness :
    parseStr [("statement", ArgValue.str "  select * from users")] "statement" "" ≠ "" ∧
    executeStatementRejects
      (parseStr [("statement", ArgValue.str "  select * from users")] "statement" "") = true ∧
    HandleTool trivEnv
        ⟨"execute_statement", [("statement", ArgValue.str "  select * from users")]⟩ =
      ((some (resErr "SELECT queries should use execute_query tool"), none), []) :=
  ⟨by decide, by decide,
    executeStatement_select_soft_error trivEnv _ (by decide) (by decide)⟩

/-- C9: for every non-empty string, the SELECT-prefix gates of the two
execute tools are exact complements: the text passes the
`execute_query` gate exactly when the `execute_statement` gate rejects
it, and conversely, so each non-empty SQL text is accepted by the
prefix check of exactly one of the two tools. -/
theorem gates_exact_complements (s : String) (_h : s ≠ "") :
    (executeQueryRejects s = false ↔ executeStatementRejects s = true) ∧
    (executeQueryRejects s = true ↔ executeStatementRejects s = false) ∧
    ((executeQueryRejects s = false ∧ executeStatementRejects s = true) ∨
      (executeQueryRejects s = true ∧ executeStatementRejects s = false)) := by
  unfold executeQueryRejects executeStatementRejects
  cases goHasPfx (goTrimSpace (goToUpper s)) "SELECT" <;> simp

/-- Witness for C9 at the concrete text `SELECT 1`. -/
theorem gates_exact_complements_witness :
    ("SELECT 1" : String) ≠ "" ∧
    ((executeQueryRejects "SELECT 1" = false ↔ executeStatementRejects "SELECT 1" = true) ∧
      (executeQueryRejects "SELECT 1" = true ↔ executeStatementRejects "SELECT 1" = false) ∧
      ((executeQueryRejects "SELECT 1" = false ∧ executeStatementRejects "SELECT 1" = true) ∨
        (executeQueryRejects "SELECT 1" = true ∧ executeStatementRejects "SELECT 1" = false))) :=
  ⟨by decide, gates_exact_complements "SELECT 1" (by decide)⟩

/-- C5: in read-only mode (readWrite = false) the registration loop
registers exactly `execute_query`, `list_tables` and `describe_table`,
skipping `execute_statement`; with readWrite = true all four tools are
registered, in declaration order. -/
theorem registration_readonly_gating :
    (registeredTools false).map Tool.name =
      ["execute_query", "list_tables", "describe_table"] ∧
    (registeredTools true).map Tool.name =
      ["execute_query", "execute_statement", "list_tables", "describe_table"] := by
  decide

/-- C8: for every path other than the in-memory marker that the
filesystem reports as absent, `database.New` fails with the error
"database file does not exist: <path>" and the driver log records only
the stat call — no `sql.Open` and no ping occur. -/
theorem new_missing_file_fails_fast (sys : SysEnv) (path : String) (ro : Bool)
    (hmem : path ≠ InMemoryDB) (habs : sys.fsExists path = false) :
    New sys path ro =
      (Except.error ("database file does not exist: " ++ path), [DriverCall.stat path]) := by
  simp [New, hmem, habs]

/-- Witness for C8 at the concrete path `/non/existent/path.db`. -/
theorem new_missing_file_fails_fast_witness :
    ("/non/existent/path.db" : String) ≠ InMemoryDB ∧
    trivSys.fsExists "/non/existent/path.db" = false ∧
    New trivSys "/non/existent/path.db" false =
      (Except.error ("database file does not exist: " ++ "/non/existent/path.db"),
        [DriverCall.stat "/non/existent/path.db"]) :=
  ⟨by decide, rfl,
    new_missing_file_fails_fast trivSys "/non/existent/path.db" false (by decide) rfl⟩

theorem handleExecuteQuery_shape (env : Env) (req : CallToolRequest) :
    ∃ r log, handleExecuteQuery env req = ((some r, none), log) := by
  unfold handleExecuteQuery
  dsimp only
  repeat' split
  all_goals exact ⟨_, _, rfl⟩

theorem handleExecuteStatement_shape (env : Env) (req : CallToolRequest) :
    ∃ r log, handleExecuteStatement env req = ((some r, none), log) := by
  unfold handleExecuteStatement
  dsimp only
  repeat' split
  all_goals exact ⟨_, _, rfl⟩

theorem handleListTables_shape (env : Env) (req : CallToolRequest) :
    ∃ r log, handleListTables env req = ((some r, none), log) := by
  unfold handleListTables
  repeat' split
  all_goals exact ⟨_, _, rfl⟩

theorem handleDescribeTable_shape (env : Env) (req : CallToolRequest) :
    ∃ r log, handleDescribeTable env req = ((some r, none), log) := by
  unfold handleDescribeTable
  dsimp only
  repeat' split
  all_goals exact ⟨_, _, rfl⟩

/-- C4: for every tool name, argument mapping and database oracle,
`HandleTool` returns a non-nil result paired with a nil Go error —
validation and SQL failures travel inside the successful response —
and an unrecognized tool name yields the soft error
"Unknown tool: <name>" with no database call. -/
theorem handle_tool_never_faults (env : Env) (req : CallToolRequest) :
    (∃ r, (HandleTool env req).1 = (some r, none)) ∧
    (req.name ≠ "execute_query" → req.name ≠ "execute_statement" →
      req.name ≠ "list_tables" → req.name ≠ "describe_table" →
      HandleTool env req =
        ((some (resErr ("Unknown tool: " ++ req.name)), none), [])) := by
  constructor
  · unfold HandleTool
    repeat' split
    · obtain ⟨r, log, hr⟩ := handleExecuteQuery_shape env req
      exact ⟨r, by rw [hr]⟩
    · obtain ⟨r, log, hr⟩ := handleExecuteStatement_shape env req
      exact ⟨r, by rw [hr]⟩
    · obtain ⟨r, log, hr⟩ := handleListTables_shape env req
      exact ⟨r, by rw [hr]⟩
    · obtain ⟨r, log, hr⟩ := handleDescribeTable_shape env req
      exact ⟨r, by rw [hr]⟩
    · exact ⟨resErr ("Unknown tool: " ++ req.name), rfl⟩
  · intro h1 h2 h3 h4
    simp [HandleTool, h1, h2, h3, h4]

/-- Witness for C4 at the concrete unknown tool name `drop_everything`. -/
theorem handle_tool_never_faults_witness :
    (∃ r, (HandleTool trivEnv ⟨"drop_everything", []⟩).1 = (some r, none)) ∧
    HandleTool trivEnv ⟨"drop_everything", []⟩ =
      ((some (resErr ("Unknown tool: " ++ "drop_everything")), none), []) :=
  ⟨(handle_tool_never_faults trivEnv ⟨"drop_everything", []⟩).1,
    (handle_tool_never_faults trivEnv ⟨"drop_everything", []⟩).2
      (by decide) (by decide) (by decide) (by decide)⟩

/-- C7: for every table name on which the wrapper's schema
introspection yields no rows, the `describe_table` tool returns the
soft error "Table '<name>' not found" and the resource path returns the
hard error "table '<name>' not found": neither path reports the empty
schema as a success. -/
theorem table_not_found_both_paths (env : Env) (name : String)
    (hname : name ≠ "") (hempty : env.queryFn (tableInfoSQL name) [] = Except.ok []) :
    HandleTool env ⟨"describe_table", [("table_name", ArgValue.str name)]⟩ =
      ((some (resErr ("Table '" ++ name ++ "' not found")), none),
        [DBCall.query (tableInfoSQL name) []]) ∧
    handleTableSchema env name =
      (Except.error ("table '" ++ name ++ "' not found"),
        [DBCall.query (tableInfoSQL name) []]) := by
  have hparse : parseStr [("table_name", ArgValue.str name)] "table_name" "" = name := rfl
  have hget : GetTableSchema env name = (Except.ok [], [DBCall.query (tableInfoSQL name) []]) := by
    simp [GetTableSchema, hempty]
  constructor
  · simp [HandleTool, handleDescribeTable, hparse, hname, hget]
  · simp [handleTableSchema, hname, hget]

/-- Witness for C7 at the concrete table name `nosuchtable` in an
environment whose every query returns no rows. -/
theorem table_not_found_both_paths_witness :
    ("nosuchtable" : String) ≠ "" ∧
    trivEnv.queryFn (tableInfoSQL "nosuchtable") [] = Except.ok [] ∧
    (HandleTool trivEnv ⟨"describe_table", [("table_name", ArgValue.str "nosuchtable")]⟩ =
        ((some (resErr ("Table '" ++ "nosuchtable" ++ "' not found")), none),
          [DBCall.query (tableInfoSQL "nosuchtable") []]) ∧
      handleTableSchema trivEnv "nosuchtable" =
        (Except.error ("table '" ++ "nosuchtable" ++ "' not found"),
          [DBCall.query (tableInfoSQL "nosuchtable") []])) :=
  ⟨by decide, rfl, table_not_found_both_paths trivEnv "nosuchtable" (by decide) rfl⟩

/-- C6: the resource dispatcher's three hard-error paths: the bare
table-schema URI (empty suffix) fails with "table name is required"; a
table-schema URI whose table has an empty schema fails with
"table '<name>' not found"; and any URI that is neither the tables URI
nor a table-schema URI fails with "unknown resource URI: <uri>". All
three are `Except.error` values propagated as real failures. -/
theorem resource_read_hard_errors (env : Env) (name uri : String)
    (hname : name ≠ "") (hempty : env.queryFn (tableInfoSQL name) [] = Except.ok [])
    (hnt : uri ≠ "schema://tables") (hnp : goHasPfx uri "schema://table/" = false) :
    HandleResource env "schema://table/" = (Except.error "table name is required", []) ∧
    HandleResource env ("schema://table/" ++ name) =
      (Except.error ("table '" ++ name ++ "' not found"),
        [DBCall.query (tableInfoSQL name) []]) ∧
    HandleResource env uri = (Except.error ("unknown resource URI: " ++ uri), []) := by
  refine ⟨?_, ?_, ?_⟩
  · have h1 : ("schema://table/" : String) ≠ "schema://tables" := by decide
    have h2 : goHasPfx "schema://table/" "schema://table/" = true := by decide
    have h3 : goTrimPfx "schema://table/" "schema://table/" = "" := by decide
    simp [HandleResource, h1, h2, h3, handleTableSchema]
  · have hget : GetTableSchema env name =
        (Except.ok [], [DBCall.query (tableInfoSQL name) []]) := by
      simp [GetTableSchema, hempty]
    simp [HandleResource, append_ne_tables name hname, hasPfx_append, trimPfx_append,
      handleTableSchema, hname, hget]
  · simp [HandleResource, hnt, hnp]

/-- Witness for C6 at the concrete table name `users` and the concrete
unmatched URI `schema://bogus`. -/
theorem resource_read_hard_errors_witness :
    ("users" : String) ≠ "" ∧
    trivEnv.queryFn (tableInfoSQL "users") [] = Except.ok [] ∧
    ("schema://bogus" : String) ≠ "schema://tables" ∧
    goHasPfx "schema://bogus" "schema://table/" = false ∧
    (HandleResource trivEnv "schema://table/" = (Except.error "table name is required", []) ∧
      HandleResource trivEnv ("schema://table/" ++ "users") =
        (Except.error ("table '" ++ "users" ++ "' not found"),
          [DBCall.query (tableInfoSQL "users") []]) ∧
      HandleResource trivEnv "schema://bogus" =
        (Except.error ("unknown resource URI: " ++ "schema://bogus"), [])) :=
  ⟨by decide, rfl, by decide, by decide,
    resource_read_hard_errors trivEnv "users" "schema://bogus"
      (by decide) rfl (by decide) (by decide)⟩

theorem handleDescribeTable_log (env : Env) (req : CallToolRequest)
    (h : parseStr req.args "table_name" "" ≠ "") :
    (handleDescribeTable env req).2 =
      [DBCall.query (tableInfoSQL (parseStr req.args "table_name" "")) []] := by
  unfold handleDescribeTable
  dsimp only
  rw [if_neg h]
  rcases hq : GetTableSchema env (parseStr req.args "table_name" "") with ⟨res, log⟩
  have hlog : log = [DBCall.query (tableInfoSQL (parseStr req.args "table_name" "")) []] := by
    have h2 := congrArg Prod.snd hq
    dsimp at h2
    rw [← h2]
    unfold GetTableSchema
    split <;> rfl
  rcases res with e | schema
  · simpa using hlog
  · dsimp only
    repeat' split
    all_goals simpa using hlog

theorem handleTableSchema_log (env : Env) (name : String) (h : name ≠ "") :
    (handleTableSchema env name).2 = [DBCall.query (tableInfoSQL name) []] := by
  unfold handleTableSchema
  rw [if_neg h]
  rcases hq : GetTableSchema env name with ⟨res, log⟩
  have hlog : log = [DBCall.query (tableInfoSQL name) []] := by
    have h2 := congrArg Prod.snd hq
    dsimp at h2
    rw [← h2]
    unfold GetTableSchema
    split <;> rfl
  rcases res with e | schema
  · simpa using hlog
  · dsimp only
    repeat' split
    all_goals simpa using hlog

/-- C10: for every caller-supplied table name reaching the wrapper from
`describe_table` or from the `schema://table/{name}` resource, the SQL
text sent to the database is the verbatim concatenation
`PRAGMA table_info(` ++ name ++ `)` with an empty bound-parameter list:
the name becomes part of the SQL text itself, unescaped and unbound. -/
theorem pragma_sql_verbatim (env : Env) (name : String) (hname : name ≠ "") :
    (HandleTool env ⟨"describe_table", [("table_name", ArgValue.str name)]⟩).2 =
      [DBCall.query ("PRAGMA table_info(" ++ name ++ ")") []] ∧
    (HandleResource env ("schema://table/" ++ name)).2 =
      [DBCall.query ("PRAGMA table_info(" ++ name ++ ")") []] := by
  have hparse : parseStr [("table_name", ArgValue.str name)] "table_name" "" = name := rfl
  constructor
  · have htool : (HandleTool env ⟨"describe_table", [("table_name", ArgValue.str name)]⟩).2 =
        (handleDescribeTable env ⟨"describe_table", [("table_name", ArgValue.str name)]⟩).2 := by
      simp [HandleTool]
    rw [htool, handleDescribeTable_log env _ (by rw [hparse]; exact hname), hparse]
    rfl
  · have hres : (HandleResource env ("schema://table/" ++ name)).2 =
        (handleTableSchema env name).2 := by
      simp [HandleResource, append_ne_tables name hname, hasPfx_append, trimPfx_append]
    rw [hres, handleTableSchema_log env name hname]
    rfl

/-- Witness for C10 at the concrete hostile table name
`users); DROP TABLE users;--`, which flows verbatim into the SQL
text. -/
theorem pragma_sql_verbatim_witness :
    ("users); DROP TABLE users;--" : String) ≠ "" ∧
    ((HandleTool trivEnv
        ⟨"describe_table", [("table_name", ArgValue.str "users); DROP TABLE users;--")]⟩).2 =
      [DBCall.query ("PRAGMA table_info(" ++ "users); DROP TABLE users;--" ++ ")") []] ∧
    (HandleResource trivEnv ("schema://table/" ++ "users); DROP TABLE users;--")).2 =
      [DBCall.query ("PRAGMA table_info(" ++ "users); DROP TABLE users;--" ++ ")") []]) :=
  ⟨by decide, pragma_sql_verbatim trivEnv "users); DROP TABLE users;--" (by decide)⟩

/-- C1 counterexample: at the concrete input path `:memory:` with
readOnly = true, the connection string `database.New` builds is the
bare `:memory:` marker, which does not encode read-only mode — so the
claim "for every database path (including the in-memory marker) the
connection string encodes read-only mode" is false on the code. -/
theorem readonly_dsn_memory_counterexample :
    buildDSN InMemoryDB true = ":memory:" ∧
    dsnMentionsReadOnly (buildDSN InMemoryDB true) = false := by
  decide

/-- C1 as amended: for every database path other than the in-memory
marker, with readOnly = true, the connection string `database.New`
builds is the `file:` URI carrying `mode=ro` (so mutating SQL is
rejected at the driver/connection-string level); for the in-memory
marker the DSN is the bare `:memory:` and encodes no read-only mode. -/
theorem readonly_dsn_encodes_mode (path : String) (h : path ≠ InMemoryDB) :
    buildDSN path true =
      ("file:" ++ path) ++
        "?mode=ro&_journal_mode=off&_temp_store=memory&_synchronous=off&_cache_size=-64000&_mmap_size=0" ∧
    dsnMentionsReadOnly (buildDSN path true) = true := by
  have hdsn : buildDSN path true =
      (("file:" ++ path) ++ "?mode=ro") ++
        "&_journal_mode=off&_temp_store=memory&_synchronous=off&_cache_size=-64000&_mmap_size=0" := by
    simp [buildDSN, h]
  constructor
  · rw [hdsn, String.append_assoc]
    congr 1
  · rw [hdsn]
    simp only [dsnMentionsReadOnly, decide_eq_true_eq]
    refine ⟨"file:".data ++ path.data ++ "?".data,
      "&_journal_mode=off&_temp_store=memory&_synchronous=off&_cache_size=-64000&_mmap_size=0".data,
      ?_⟩
    simp [String.data_append]

/-- Witness for the amended C1 at the concrete path `test.db`. -/
theorem readonly_dsn_encodes_mode_witness :
    ("test.db" : String) ≠ InMemoryDB ∧
    (buildDSN "test.db" true =
        ("file:" ++ "test.db") ++
          "?mode=ro&_journal_mode=off&_temp_store=memory&_synchronous=off&_cache_size=-64000&_mmap_size=0" ∧
      dsnMentionsReadOnly (buildDSN "test.db" true) = true) :=
  ⟨by decide, readonly_dsn_encodes_mode "test.db" (by decide)⟩

end SqliteMcp
